import Mathlib

/-!
Shallow embedding of the SEO audit engine (`seo_audit.py`): URL
normalization, the on-page document checks, smart link sampling and
validation, the technical/robots probes, the scorer, and the top-level
audit pipeline with its two short-circuit failure branches.

Network effects (the page fetch, per-link HEAD/GET probes, robots and
sitemap probes) are modelled as oracles supplied through an environment
value; everything else is translated directly from the source.
-/

namespace SeoAudit

/-- ASCII whitespace test used by the string-trim model. -/
def isWsChar (c : Char) : Bool :=
  c == ' ' || c == '\t' || c == '\n' || c == '\r'

/-- Models Python str.strip for ASCII whitespace, written over the
character list so the kernel can evaluate it. -/
def trimStr (s : String) : String :=
  ⟨((s.data.dropWhile isWsChar).reverse.dropWhile isWsChar).reverse⟩

/-- Models Python str.lower for the ASCII range. -/
def lowerStr (s : String) : String :=
  ⟨s.data.map Char.toLower⟩

/-- List-level check that the first list is a leading segment of the second. -/
def leadsList : List Char → List Char → Bool
  | [], _ => true
  | _ :: _, [] => false
  | a :: as, b :: bs => a == b && leadsList as bs

/-- Models Python str.startswith. -/
def startsWithStr (s pat : String) : Bool :=
  leadsList pat.data s.data

/-- Naive substring search over character lists. -/
def containsSubAux (pat : List Char) : List Char → Bool
  | [] => leadsList pat []
  | c :: cs => leadsList pat (c :: cs) || containsSubAux pat cs

/-- Models the Python `in` operator on strings (substring containment). -/
def containsSub (s pat : String) : Bool :=
  containsSubAux pat.data s.data

/-- Split a character list at the first occurrence of `pat`, returning the
part before and the part after. -/
def splitFirst (pat : List Char) : List Char → Option (List Char × List Char)
  | [] => none
  | c :: cs =>
    if leadsList pat (c :: cs) then some ([], (c :: cs).drop pat.length)
    else
      match splitFirst pat cs with
      | some (pre, post) => some (c :: pre, post)
      | none => none

/-- Models scheme detection of urllib.parse.urlparse for URLs written as
scheme://rest (the only shapes this program constructs or samples):
returns the scheme and the remainder after "://". -/
def splitScheme (s : String) : Option (String × String) :=
  match splitFirst "://".data s.data with
  | some (pre, post) => if pre.isEmpty then none else some (⟨pre⟩, ⟨post⟩)
  | none => none

/-- Models urlparse(url).netloc: the host part between "://" (or a leading
"//") and the first path, query or fragment delimiter. -/
def netloc (url : String) : String :=
  match splitScheme url with
  | some (_, rest) => ⟨rest.data.takeWhile (fun c => c ≠ '/' && c ≠ '?' && c ≠ '#')⟩
  | none =>
    if startsWithStr url "//" then
      ⟨(url.data.drop 2).takeWhile (fun c => c ≠ '/' && c ≠ '?' && c ≠ '#')⟩
    else ""

/-- Models urlparse(url).scheme for scheme://rest URLs. -/
def urlScheme (url : String) : String :=
  match splitScheme url with
  | some (sch, _) => sch
  | none => ""

/-- Embeds `_domain`: lower-cased netloc. -/
def domain (url : String) : String :=
  lowerStr (netloc url)

/-- Models urllib.parse.urljoin for the reference shapes this program
handles: absolute URLs pass through, protocol-relative references take the
base scheme, and path references resolve against the base origin (path
resolution is simplified to the origin, which preserves the host — the
only component this program consumes downstream). Embeds `_absolute_url`. -/
def absolute_url (base href : String) : String :=
  if (splitScheme href).isSome then href
  else if startsWithStr href "//" then urlScheme base ++ ":" ++ href
  else if href == "" then base
  else if startsWithStr href "/" then urlScheme base ++ "://" ++ netloc base ++ href
  else urlScheme base ++ "://" ++ netloc base ++ "/" ++ href

/-- Embeds `_is_internal`: host of the href resolved against the base,
compared with the host of the base. -/
def is_internal (base_url href : String) : Bool :=
  domain base_url == domain (absolute_url base_url href)

/-- Embeds `_ensure_url_scheme`. -/
def ensure_url_scheme (input_url : String) : String :=
  if urlScheme input_url == "" then "https://" ++ input_url else input_url

/-- Models the dicts of shape {"length": ..., "issues": [...]} returned by
the title and meta-description checks. -/
structure LenIssues where
  length : Nat
  issues : List String
deriving Repr, DecidableEq

/-- Embeds `_check_title`. The input is the text of the title tag when one
exists. Returns the title value, the info dict and the updated
recommendation list. -/
def check_title (titleTag : Option String) (recommendations : List String) :
    Option String × LenIssues × List String :=
  match titleTag with
  | some raw =>
    if trimStr raw ≠ "" then
      let title := trimStr raw
      let issues1 : List String := if title.length < 30 then ["Title too short (<30 chars)"] else []
      let recs1 := if title.length < 30 then
        recommendations ++ ["Increase title length to ~50-60 characters."] else recommendations
      let issues2 := if 60 < title.length then issues1 ++ ["Title too long (>60 chars)"] else issues1
      let recs2 := if 60 < title.length then recs1 ++ ["Shorten title to <=60 characters."] else recs1
      (some title, ⟨title.length, issues2⟩, recs2)
    else
      (none, ⟨0, ["Missing title"]⟩, recommendations ++ ["Missing <title> tag."])
  | none =>
    (none, ⟨0, ["Missing title"]⟩, recommendations ++ ["Missing <title> tag."])

/-- Embeds `_check_meta_description`. The input is the raw content
attribute of the description meta tag when the tag exists. -/
def check_meta_description (metaDesc : Option String) (recommendations : List String) :
    Option String × LenIssues × List String :=
  match metaDesc with
  | some raw =>
    if raw ≠ "" then
      let content := trimStr raw
      let issues1 : List String :=
        if content.length < 50 then ["Description too short (<50 chars)"] else []
      let recs1 := if content.length < 50 then
        recommendations ++ ["Expand meta description to 120-160 characters."] else recommendations
      let issues2 :=
        if 160 < content.length then issues1 ++ ["Description too long (>160 chars)"] else issues1
      let recs2 := if 160 < content.length then
        recs1 ++ ["Shorten meta description to <=160 characters."] else recs1
      (some content, ⟨content.length, issues2⟩, recs2)
    else
      (none, ⟨0, ["Missing meta description"]⟩,
        recommendations ++ ["Add a unique meta description (120-160 characters)."])
  | none =>
    (none, ⟨0, ["Missing meta description"]⟩,
      recommendations ++ ["Add a unique meta description (120-160 characters)."])

/-- Models the dict {"count": ..., "issues": [...]} of the H1 check. -/
structure H1Info where
  count : Nat
  issues : List String
deriving Repr, DecidableEq

/-- Embeds `_check_h1`. The input is the list of raw h1 tag texts. -/
def check_h1 (h1Texts : List String) (recommendations : List String) :
    List String × H1Info × List String :=
  let h1s := (h1Texts.filter (fun t => trimStr t ≠ "")).map trimStr
  if h1s.length == 0 then
    (h1s, ⟨h1s.length, ["No H1"]⟩, recommendations ++ ["Add one descriptive H1 heading."])
  else if 1 < h1s.length then
    (h1s, ⟨h1s.length, ["Multiple H1s"]⟩,
      recommendations ++ ["Use only one primary H1 heading per page."])
  else
    (h1s, ⟨h1s.length, []⟩, recommendations)

/-- An img element: its alt attribute (when present) and src attribute. -/
structure Img where
  alt : Option String
  src : Option String
deriving Repr, DecidableEq

/-- Models the dict {"total": ...} of the image check. -/
structure ImagesInfo where
  total : Nat
deriving Repr, DecidableEq

/-- True when the alt attribute is absent, empty or whitespace only,
exactly as the Python truthiness test in `_check_images`. -/
def imgAltMissing (img : Img) : Bool :=
  match img.alt with
  | none => true
  | some a => a == "" || trimStr a == ""

/-- Embeds `_check_images`. -/
def check_images (images : List Img) (recommendations : List String) :
    List String × ImagesInfo × List String :=
  let missing := (images.filter imgAltMissing).map (fun i => i.src.getD "unknown")
  let recs := if missing.isEmpty then recommendations
    else recommendations ++ [toString missing.length ++ " images missing alt text."]
  (missing, ⟨images.length⟩, recs)

/-- Models the dict {"issues": [...]} of the canonical check. -/
structure CanonicalInfo where
  issues : List String
deriving Repr, DecidableEq

/-- Embeds `_check_canonical`. The input is the href attribute of the
canonical link tag when one exists. -/
def check_canonical (base_url : String) (canonicalHref : Option String)
    (recommendations : List String) : Option String × CanonicalInfo × List String :=
  match canonicalHref with
  | some rawHref =>
    if rawHref ≠ "" then
      let href := absolute_url base_url rawHref
      let page_no_fragment := absolute_url base_url ""
      if netloc href ≠ netloc page_no_fragment then
        (some href, ⟨["Canonical points to different domain"]⟩,
          recommendations ++ ["Ensure canonical URL points to the same domain."])
      else
        (some href, ⟨[]⟩, recommendations)
    else
      (none, ⟨["Missing canonical"]⟩,
        recommendations ++ ["Add a canonical <link> to avoid duplicate content."])
  | none =>
    (none, ⟨["Missing canonical"]⟩,
      recommendations ++ ["Add a canonical <link> to avoid duplicate content."])

/-- Embeds `_check_viewport`. The input records whether a viewport meta tag
exists in the document. -/
def check_viewport (hasViewportMeta : Bool) (recommendations : List String) :
    Bool × List String :=
  if hasViewportMeta then (true, recommendations)
  else (false, recommendations ++ ["Add responsive viewport meta tag."])

/-- Models the dict {"noindex": ..., "nofollow": ...}. -/
structure MetaRobots where
  noindex : Bool
  nofollow : Bool
deriving Repr, DecidableEq

/-- Embeds `_check_meta_robots`. The input is the content attribute of the
robots meta tag when the tag exists. -/
def check_meta_robots (robotsContent : Option String) (recommendations : List String) :
    MetaRobots × List String :=
  match robotsContent with
  | some raw =>
    if raw ≠ "" then
      let content := lowerStr raw
      let noindex := containsSub content "noindex"
      let nofollow := containsSub content "nofollow"
      let recs1 := if noindex then recommendations ++ ["Page is set to noindex."] else recommendations
      let recs2 := if nofollow then recs1 ++ ["Page is set to nofollow."] else recs1
      (⟨noindex, nofollow⟩, recs2)
    else (⟨false, false⟩, recommendations)
  | none => (⟨false, false⟩, recommendations)

/-- Models the dict {"lang": ..., "charset": ...}. -/
structure LangCharset where
  lang : Option String
  charset : Option String
deriving Repr, DecidableEq

/-- Embeds `_check_lang_and_charset`. Inputs are the html lang attribute,
the meta charset attribute, and the content of an http-equiv Content-Type
meta, each when present. -/
def check_lang_and_charset (htmlLang metaCharset httpEquivContent : Option String)
    (recommendations : List String) : LangCharset × List String :=
  let langVal : Option String :=
    match htmlLang with
    | some l => if l ≠ "" then some (trimStr l) else none
    | none => none
  let recs1 := if langVal.isSome then recommendations
    else recommendations ++ ["Set <html lang> attribute for accessibility and SEO."]
  let charsetVal : Option String :=
    match metaCharset with
    | some c => if c ≠ "" then some (lowerStr (trimStr c)) else none
    | none => none
  match charsetVal with
  | some c => (⟨langVal, some c⟩, recs1)
  | none =>
    match httpEquivContent with
    | some h =>
      if h ≠ "" then (⟨langVal, some (lowerStr h)⟩, recs1)
      else (⟨langVal, none⟩, recs1 ++ ["Declare a charset (e.g., UTF-8)."])
    | none => (⟨langVal, none⟩, recs1 ++ ["Declare a charset (e.g., UTF-8)."])

/-- A link rel=alternate tag: its hreflang and href attributes. -/
structure HreflangTag where
  hreflang : Option String
  href : Option String
deriving Repr, DecidableEq

/-- A collected hreflang entry with the href resolved to absolute. -/
structure HreflangEntry where
  hreflang : String
  href : String
deriving Repr, DecidableEq

/-- Embeds `_check_hreflang`. -/
def check_hreflang (base_url : String) (tags : List HreflangTag)
    (recommendations : List String) : List HreflangEntry × List String :=
  let collected := tags.foldl (fun (acc : List HreflangEntry) t =>
    match t.hreflang, t.href with
    | some hl, some h =>
      if hl ≠ "" && h ≠ "" then acc ++ [⟨hl, absolute_url base_url h⟩] else acc
    | _, _ => acc) []
  if collected.isEmpty then (collected, recommendations)
  else
    let has_x_default := collected.any (fun e => lowerStr e.hreflang == "x-default")
    if has_x_default then (collected, recommendations)
    else (collected, recommendations ++ ["Add x-default hreflang for international pages."])

/-- Models the social/structured-data dict. -/
structure Social where
  open_graph : Bool
  twitter_card : Bool
  json_ld_blocks : Nat
  json_ld_errors : Nat
deriving Repr, DecidableEq

/-- Embeds `_check_social_and_structured`. The JSON-LD scripts are given
as a list of booleans recording whether each block parses as JSON. -/
def check_social_and_structured (hasOpenGraph hasTwitterCard : Bool)
    (jsonLdParses : List Bool) (recommendations : List String) : Social × List String :=
  let recs1 := if hasOpenGraph then recommendations
    else recommendations ++ ["Add Open Graph tags for better social sharing."]
  let recs2 := if hasTwitterCard then recs1
    else recs1 ++ ["Add Twitter Card meta tags."]
  let folded := jsonLdParses.foldl
    (fun (acc : Nat × Nat × List String) ok =>
      if ok then (acc.1 + 1, acc.2.1, acc.2.2)
      else (acc.1, acc.2.1 + 1, acc.2.2 ++ ["Fix invalid JSON-LD structured data."]))
    (0, 0, recs2)
  (⟨hasOpenGraph, hasTwitterCard, folded.1, folded.2.1⟩, folded.2.2)

/-- An anchor element with the features `_smart_link_sampling` inspects:
its href, its landmark ancestors, and its visible text (already stripped,
as produced by get_text with strip). -/
structure Anchor where
  href : String
  inNav : Bool
  inMainOrArticle : Bool
  inHeader : Bool
  inFooter : Bool
  text : String
deriving Repr, DecidableEq

/-- The importance score `_smart_link_sampling` assigns to one anchor. -/
def linkScore (a : Anchor) : Int :=
  let s1 : Int := if a.inNav then 10 else 0
  let s2 := if a.inMainOrArticle then s1 + 8 else s1
  let s3 := if a.inHeader then s2 + 6 else s2
  let s4 := if a.inFooter then s3 + 4 else s3
  let s5 := if ["social", "ad", "analytics", "tracking"].any
      (fun w => containsSub (lowerStr a.href) w) then s4 - 5 else s4
  if 3 < a.text.length && a.text.length < 50 then s5 + 2 else s5

/-- The anchors skipped by `_smart_link_sampling`: javascript, mailto and
tel hrefs. -/
def skipHref (href : String) : Bool :=
  startsWithStr href "javascript:" || startsWithStr href "mailto:" || startsWithStr href "tel:"

/-- Stable insertion into a list sorted by descending score: a new element
goes before the first element whose score is not larger, which reproduces
the order of the stable Python sort with reverse set. -/
def insertDesc (x : String × Int) : List (String × Int) → List (String × Int)
  | [] => [x]
  | y :: ys => if y.2 ≤ x.2 then x :: y :: ys else y :: insertDesc x ys

/-- Stable descending sort by score, modelling list.sort keyed on the
score with reverse set. -/
def sortDesc : List (String × Int) → List (String × Int)
  | [] => []
  | x :: xs => insertDesc x (sortDesc xs)

/-- The fixed placeholder base URL the source uses during sampling. -/
def placeholderBase : String := "https://placeholder.com"

/-- Embeds `_smart_link_sampling`: filter skipped schemes, score each
anchor, classify against the placeholder base, sort each side by
descending score and truncate to the budget. -/
def smart_link_sampling (anchors : List Anchor) (max_links : Nat) :
    List String × List String :=
  let candidates := anchors.filter (fun a => !skipHref a.href)
  let scored := candidates.map (fun a => (a.href, linkScore a))
  let scored_internal := scored.filter
    (fun p => is_internal placeholderBase (absolute_url placeholderBase p.1))
  let scored_external := scored.filter
    (fun p => !is_internal placeholderBase (absolute_url placeholderBase p.1))
  (((sortDesc scored_internal).take max_links).map (fun p => p.1),
   ((sortDesc scored_external).take max_links).map (fun p => p.1))

/-- Embeds the `unique` helper of `_check_links`: keep the first
occurrence of each URL. -/
def uniqueAux (seen : List String) : List String → List String
  | [] => []
  | x :: xs => if seen.contains x then uniqueAux seen xs else x :: uniqueAux (x :: seen) xs

/-- First-occurrence deduplication, as `unique` in `_check_links`. -/
def unique (xs : List String) : List String :=
  uniqueAux [] xs

/-- Embeds `head_or_get`. The two oracles give the status of the HEAD and
GET probes for the link, with none modelling a raised exception. The first
component is the status the function returns (none when it returns no
response); the second records whether a GET retry was issued. -/
def head_or_get (headRes getRes : Option Nat) : Option Nat × Bool :=
  match headRes with
  | none => (none, false)
  | some s =>
    if 400 ≤ s ∨ s = 405 ∨ s = 501 then (getRes, true) else (some s, false)

/-- The three outcome buckets accumulated by the result loop of
`_check_links`. -/
structure Buckets where
  broken_internal : List (String × Nat)
  broken_external : List (String × Nat)
  redirects : List (String × Nat)
deriving Repr, DecidableEq

/-- Embeds one iteration of the result loop in `_check_links`: a none
result models the exception path, recovered as status 0 in the broken
bucket of the link as classified by `_is_internal` against the real base
URL. -/
def processLink (base_url : String) (st : Buckets) (link : String) (res : Option Nat) :
    Buckets :=
  match res with
  | some status =>
    let st1 := if 300 ≤ status ∧ status < 400 then
      { st with redirects := st.redirects ++ [(link, status)] } else st
    if 400 ≤ status then
      if is_internal base_url link then
        { st1 with broken_internal := st1.broken_internal ++ [(link, status)] }
      else
        { st1 with broken_external := st1.broken_external ++ [(link, status)] }
    else st1
  | none =>
    if is_internal base_url link then
      { st with broken_internal := st.broken_internal ++ [(link, 0)] }
    else
      { st with broken_external := st.broken_external ++ [(link, 0)] }

/-- The whole result loop of `_check_links`, folded over the submitted
links. Completion order of the futures is nondeterministic in the source;
the fold processes them in submission order, which fixes one completion
order. -/
def processBatch (base_url : String) (probe : String → Option Nat)
    (links : List String) (st : Buckets) : Buckets :=
  links.foldl (fun st link => processLink base_url st link (probe link)) st

/-- The full buckets `_check_links` accumulates before any truncation. -/
def fullBuckets (base_url : String) (anchors : List Anchor) (max_links : Nat)
    (headOracle getOracle : String → Option Nat) : Buckets :=
  let sampled := smart_link_sampling anchors max_links
  let internal := unique sampled.1
  let external := unique sampled.2
  processBatch base_url (fun l => (head_or_get (headOracle l) (getOracle l)).1)
    (internal ++ external) ⟨[], [], []⟩

/-- The links section of the report dict. -/
structure LinksSection where
  internal_count : Nat
  external_count : Nat
  broken_internal : List (String × Nat)
  broken_external : List (String × Nat)
  redirects : List (String × Nat)
deriving Repr, DecidableEq

/-- What `_check_links` produces: the links section of the report, the
updated recommendation list, plus two effect observables of the worker
pool — the list of links submitted to it and the max_workers value it is
created with. -/
structure CheckLinksOut where
  links : LinksSection
  recommendations : List String
  submitted : List String
  pool_max_workers : Nat
deriving DecidableEq

/-- Embeds `_check_links`. -/
def check_links (base_url : String) (anchors : List Anchor) (max_links : Nat)
    (recommendations : List String) (workers : Nat)
    (headOracle getOracle : String → Option Nat) : CheckLinksOut :=
  let sampled := smart_link_sampling anchors max_links
  let internal := unique sampled.1
  let external := unique sampled.2
  let st := processBatch base_url (fun l => (head_or_get (headOracle l) (getOracle l)).1)
    (internal ++ external) ⟨[], [], []⟩
  let recs1 := if st.broken_internal.isEmpty then recommendations
    else recommendations ++ [toString st.broken_internal.length ++ " internal links appear broken."]
  let recs2 := if st.redirects.isEmpty then recs1
    else recs1 ++
      [toString st.redirects.length ++ " links redirect; update to final URLs where possible."]
  ⟨⟨internal.length, external.length, st.broken_internal.take 10,
    st.broken_external.take 10, st.redirects.take 10⟩,
   recs2, internal ++ external, workers⟩

/-- The response headers `_check_technical_headers` reads, already keyed
case-insensitively as in the source (which lowercases all header names
before lookup). -/
structure HttpHeaders where
  content_length : Nat
  content_encoding : Option String
  strict_transport_security : Option String
  x_content_type_options_header : Option String
  x_frame_options_header : Option String
  referrer_policy_header : Option String
  csp_header : Option String
  server : Option String
  cache_control : Option String
deriving Repr, DecidableEq

/-- The technical section of a full report. -/
structure Technical where
  status_code : Nat
  response_time_ms : Nat
  content_length : Nat
  gzip : Bool
  hsts : Bool
  x_content_type_options : Bool
  x_frame_options : Bool
  referrer_policy : Bool
  csp : Bool
  server : Option String
  cache_control : Option String
deriving Repr, DecidableEq

/-- Embeds `_check_technical_headers`. -/
def check_technical_headers (url : String) (status_code response_time_ms : Nat)
    (h : HttpHeaders) (recommendations : List String) : Technical × List String :=
  let tech : Technical :=
    { status_code := status_code
      response_time_ms := response_time_ms
      content_length := h.content_length
      gzip := ["gzip", "br", "deflate"].contains (lowerStr (h.content_encoding.getD ""))
      hsts := h.strict_transport_security.isSome
      x_content_type_options := h.x_content_type_options_header == some "nosniff"
      x_frame_options := h.x_frame_options_header.isSome
      referrer_policy := h.referrer_policy_header.isSome
      csp := h.csp_header.isSome
      server := h.server
      cache_control := h.cache_control }
  let r1 := if 1500 < tech.response_time_ms then
    recommendations ++ ["Page load (first byte) seems slow (>1.5s). Optimize performance."]
    else recommendations
  let r2 := if 2 * 1024 * 1024 < tech.content_length then
    r1 ++ ["Large page size (>2MB). Consider optimizing assets."] else r1
  let r3 := if urlScheme url == "https" && !tech.hsts then
    r2 ++ ["Enable HSTS for better transport security."] else r2
  let r4 := if !tech.x_content_type_options then
    r3 ++ ["Add X-Content-Type-Options: nosniff header."] else r3
  let r5 := if !tech.x_frame_options then
    r4 ++ ["Add X-Frame-Options header to prevent clickjacking."] else r4
  let r6 := if !tech.referrer_policy then
    r5 ++ ["Set a Referrer-Policy header."] else r5
  let r7 := if !tech.csp then
    r6 ++ ["Consider adding a Content-Security-Policy header."] else r6
  (tech, r7)

/-- The robots/sitemap section of a full report. -/
structure RobotsSitemap where
  robots_txt : String
  sitemap : String
  robots_notes : List String
deriving Repr, DecidableEq

/-- Embeds `_check_robots_and_sitemap`. The robots oracle gives status and
body of the robots.txt probe (none models a fetch error), the sitemap
oracle the status of the sitemap.xml probe. -/
def check_robots_and_sitemap (robotsResp : Option (Nat × String))
    (sitemapStatus : Option Nat) (recommendations : List String) :
    RobotsSitemap × List String :=
  let step1 : RobotsSitemap × List String :=
    match robotsResp with
    | some (st, content) =>
      if st == 200 then
        let notes1 : List String :=
          if !containsSub content "Disallow:" && !containsSub content "Allow:" then
            ["robots.txt seems permissive (no explicit rules)."] else []
        let notes2 := if containsSub content "Sitemap:" then
          notes1 ++ ["robots.txt references a sitemap."] else notes1
        (⟨"Present", "Missing", notes2⟩, recommendations)
      else (⟨"Missing", "Missing", []⟩, recommendations ++ ["Missing robots.txt file."])
    | none => (⟨"Missing", "Missing", []⟩, recommendations ++ ["Missing robots.txt file."])
  match sitemapStatus with
  | some st =>
    if st == 200 then ({ step1.1 with sitemap := "Present" }, step1.2)
    else (step1.1, step1.2 ++ ["Missing sitemap.xml file."])
  | none => (step1.1, step1.2 ++ ["Missing sitemap.xml file."])

/-- The on-page section of a full report. -/
structure OnPage where
  title : Option String
  title_info : LenIssues
  meta_description : Option String
  meta_description_info : LenIssues
  h1_tags : List String
  h1_info : H1Info
  images_missing_alt : List String
  images_info : ImagesInfo
  canonical : Option String
  canonical_info : CanonicalInfo
  has_viewport_meta : Bool
  meta_robots : MetaRobots
  lang_charset : LangCharset
  hreflang : List HreflangEntry
deriving Repr, DecidableEq

/-- The fully populated report dict as read by `_score`. -/
structure Report where
  url : String
  on_page : OnPage
  social_structured : Social
  links : LinksSection
  technical : Technical
  robots_sitemap : RobotsSitemap
  recommendations : List String
deriving DecidableEq

/-- The score dict: overall value plus itemized deduction strings. -/
structure ScoreBreakdown where
  overall : Int
  deductions : List String
deriving Repr, DecidableEq

/-- One step of the `deduct` helper inside `_score`: when the condition
holds, subtract the points and append the itemized line. -/
def dstep (st : Int × List String) (d : Bool × Int × String) : Int × List String :=
  if d.1 then (st.1 - d.2.1, st.2 ++ ["-" ++ toString d.2.1 ++ ": " ++ d.2.2]) else st

/-- The ordered deduction table of `_score` evaluated on a report: each
entry is the condition, the points and the reason, in source order. -/
def deductionList (r : Report) : List (Bool × Int × String) :=
  [(!r.on_page.title_info.issues.isEmpty, 5, "Title issues"),
   (!r.on_page.meta_description_info.issues.isEmpty, 5, "Meta description issues"),
   (!r.on_page.h1_info.issues.isEmpty, 5, "H1 count issues"),
   (5 < r.on_page.images_missing_alt.length, 3, "Many images missing alt"),
   (!r.on_page.canonical_info.issues.isEmpty, 2, "Canonical issues"),
   (!r.on_page.has_viewport_meta, 2, "Missing viewport"),
   (r.on_page.meta_robots.noindex, 10, "noindex set"),
   (!r.social_structured.open_graph, 2, "Missing Open Graph"),
   (!r.social_structured.twitter_card, 1, "Missing Twitter Card"),
   (0 < r.social_structured.json_ld_errors, 2, "Invalid JSON-LD"),
   (0 < r.links.broken_internal.length, 5, "Broken internal links"),
   (3 < r.links.broken_external.length, 2, "Multiple broken external links"),
   (1500 < r.technical.response_time_ms, 5, "Slow TTFB"),
   (2 * 1024 * 1024 < r.technical.content_length, 4, "Large page size"),
   (!r.technical.hsts && urlScheme r.url == "https", 2, "Missing HSTS"),
   (!r.technical.x_content_type_options, 1, "Missing X-Content-Type-Options"),
   (!r.technical.x_frame_options, 1, "Missing X-Frame-Options"),
   (!r.technical.referrer_policy, 1, "Missing Referrer-Policy"),
   (!r.technical.csp, 1, "Missing CSP"),
   (r.robots_sitemap.robots_txt ≠ "Present", 2, "Missing robots.txt"),
   (r.robots_sitemap.sitemap ≠ "Present", 2, "Missing sitemap.xml")]

/-- The sequence of `deduct` calls in `_score`, starting from 100 with an
empty deduction list. -/
def applyDeductions (ds : List (Bool × Int × String)) : Int × List String :=
  ds.foldl dstep (100, [])

/-- Embeds `_score`: apply the deduction table, then floor the overall
value at 0. -/
def score (r : Report) : ScoreBreakdown :=
  let st := applyDeductions (deductionList r)
  ⟨max st.1 0, st.2⟩

/-- Outcome of the initial page fetch: a raised error message, or a
response with its status and elapsed milliseconds. -/
inductive FetchRes where
  | failed (err : String)
  | ok (status : Nat) (elapsedMs : Nat)
deriving Repr, DecidableEq

/-- The parsed document signals the on-page checks read. -/
structure Document where
  titleTag : Option String
  metaDescription : Option String
  h1Texts : List String
  images : List Img
  canonicalHref : Option String
  hasViewportMeta : Bool
  metaRobotsContent : Option String
  htmlLang : Option String
  metaCharset : Option String
  httpEquivContentType : Option String
  hreflangTags : List HreflangTag
  hasOpenGraph : Bool
  hasTwitterCard : Bool
  jsonLdParses : List Bool
  anchors : List Anchor

/-- The audit environment: every network interaction of one audit run,
supplied as oracles. -/
structure AuditEnv where
  fetch : FetchRes
  doc : Document
  headers : HttpHeaders
  robotsResp : Option (Nat × String)
  sitemapStatus : Option Nat
  headOracle : String → Option Nat
  getOracle : String → Option Nat

/-- The technical section of the report envelope. The short constructor
models the small dicts the two short-circuit branches store: each field is
present exactly when the corresponding key is in the dict. -/
inductive TechSection where
  | empty
  | short (error : Option String) (status_code : Option Nat) (response_time_ms : Option Nat)
  | full (t : Technical)
deriving Repr, DecidableEq

/-- The report envelope `seo_audit` returns. Optional sections are none
when the corresponding dict is left empty (the short-circuit branches). -/
structure AuditReport where
  url : String
  on_page : Option OnPage
  social_structured : Option Social
  links : Option LinksSection
  technical : TechSection
  robots_sitemap : Option RobotsSitemap
  recommendations : List String
  scoreInfo : Option ScoreBreakdown
  analysis_time_ms : Option Nat
  workers_used : Option Nat
deriving DecidableEq

/-- Effect observables of the link-validation pool: which links were
submitted to it and the max_workers value it was created with. -/
structure LinkTrace where
  submitted : List String
  pool_max_workers : Nat
deriving Repr, DecidableEq

/-- Embeds `seo_audit`: normalize the URL, short-circuit on a fetch error
or an HTTP status of at least 400, otherwise run every check in source
order threading the shared recommendation list, then score. The second
component is the link-pool trace (none when the pool is never created). -/
def seo_audit (rawUrl : String) (max_links : Nat) (workers : Nat) (env : AuditEnv) :
    AuditReport × Option LinkTrace :=
  let url := ensure_url_scheme (trimStr rawUrl)
  match env.fetch with
  | .failed err =>
    ({ url := url, on_page := none, social_structured := none, links := none,
       technical := .short (some err) none none, robots_sitemap := none,
       recommendations := ["Could not fetch website: " ++ err],
       scoreInfo := some ⟨0, ["Critical: site unreachable"]⟩,
       analysis_time_ms := none, workers_used := none }, none)
  | .ok status elapsedMs =>
    if 400 ≤ status then
      ({ url := url, on_page := none, social_structured := none, links := none,
         technical := .short none (some status) (some elapsedMs),
         robots_sitemap := none,
         recommendations :=
           ["Website returned status code " ++ toString status ++ ". Check server health."],
         scoreInfo := some ⟨0, ["Critical: HTTP error"]⟩,
         analysis_time_ms := none, workers_used := none }, none)
    else
      let doc := env.doc
      let t1 := check_title doc.titleTag []
      let t2 := check_meta_description doc.metaDescription t1.2.2
      let t3 := check_h1 doc.h1Texts t2.2.2
      let t4 := check_images doc.images t3.2.2
      let t5 := check_canonical url doc.canonicalHref t4.2.2
      let t6 := check_viewport doc.hasViewportMeta t5.2.2
      let t7 := check_meta_robots doc.metaRobotsContent t6.2
      let t8 := check_lang_and_charset doc.htmlLang doc.metaCharset
        doc.httpEquivContentType t7.2
      let t9 := check_hreflang url doc.hreflangTags t8.2
      let onPage : OnPage :=
        { title := t1.1, title_info := t1.2.1,
          meta_description := t2.1, meta_description_info := t2.2.1,
          h1_tags := t3.1, h1_info := t3.2.1,
          images_missing_alt := t4.1, images_info := t4.2.1,
          canonical := t5.1, canonical_info := t5.2.1,
          has_viewport_meta := t6.1,
          meta_robots := t7.1,
          lang_charset := t8.1,
          hreflang := t9.1 }
      let t10 := check_social_and_structured doc.hasOpenGraph doc.hasTwitterCard
        doc.jsonLdParses t9.2
      let t11 := check_technical_headers url status elapsedMs env.headers t10.2
      let t12 := check_robots_and_sitemap env.robotsResp env.sitemapStatus t11.2
      let cl := check_links url doc.anchors max_links t12.2 workers
        env.headOracle env.getOracle
      let fullRep : Report :=
        { url := url, on_page := onPage, social_structured := t10.1,
          links := cl.links, technical := t11.1, robots_sitemap := t12.1,
          recommendations := cl.recommendations }
      ({ url := url, on_page := some onPage, social_structured := some t10.1,
         links := some cl.links, technical := .full t11.1,
         robots_sitemap := some t12.1,
         recommendations := cl.recommendations,
         scoreInfo := some (score fullRep),
         analysis_time_ms := some elapsedMs, workers_used := some workers },
       some ⟨cl.submitted, cl.pool_max_workers⟩)

/-- Embeds the worker cap the CLI and web entry points apply (min of the
requested count and 20) before they invoke `seo_audit`. -/
def cli_workers (requested : Nat) : Nat :=
  min requested 20

/-- A string of n letters, used for title-length boundary inputs. -/
def repA (n : Nat) : String :=
  ⟨List.replicate n 'a'⟩

/-- A document with no signals at all. -/
def emptyDoc : Document :=
  { titleTag := none, metaDescription := none, h1Texts := [], images := []
    canonicalHref := none, hasViewportMeta := false, metaRobotsContent := none
    htmlLang := none, metaCharset := none, httpEquivContentType := none
    hreflangTags := [], hasOpenGraph := false, hasTwitterCard := false
    jsonLdParses := [], anchors := [] }

/-- A response header set with nothing present. -/
def plainHeaders : HttpHeaders :=
  ⟨0, none, none, none, none, none, none, none, none⟩

/-- An environment whose main fetch succeeds with status 200 over an empty
document. -/
def okEnv : AuditEnv :=
  { fetch := .ok 200 100, doc := emptyDoc, headers := plainHeaders
    robotsResp := none, sitemapStatus := none
    headOracle := fun _ => none, getOracle := fun _ => none }

/-- An environment whose main fetch returns HTTP 404 after 7 ms. -/
def env404 : AuditEnv :=
  { okEnv with fetch := .ok 404 7 }

/-- An environment whose main fetch raises. -/
def envFail : AuditEnv :=
  { okEnv with fetch := .failed "boom" }

/-- An anchor whose absolute href points at the audited page host. -/
def ownHostAnchor : Anchor :=
  ⟨"https://example.com/about", false, false, false, false, "About"⟩

/-- An anchor whose absolute href points at a foreign host. -/
def foreignAnchor : Anchor :=
  ⟨"https://other.com/page", false, false, false, false, "link"⟩

/-- The document of the end-to-end scenario: no title, no meta
description, two h1 tags, one image without alt text, everything else in
good shape. -/
def scenarioDoc : Document :=
  { titleTag := none
    metaDescription := none
    h1Texts := ["Welcome", "About us"]
    images := [⟨none, some "hero.png"⟩]
    canonicalHref := some "https://example.com/"
    hasViewportMeta := true
    metaRobotsContent := none
    htmlLang := some "en"
    metaCharset := some "utf-8"
    httpEquivContentType := none
    hreflangTags := []
    hasOpenGraph := true
    hasTwitterCard := true
    jsonLdParses := []
    anchors := [] }

/-- The response headers of the end-to-end scenario: HTTPS-relevant
security headers all present except HSTS. -/
def scenarioHeaders : HttpHeaders :=
  { content_length := 1000
    content_encoding := some "gzip"
    strict_transport_security := none
    x_content_type_options_header := some "nosniff"
    x_frame_options_header := some "SAMEORIGIN"
    referrer_policy_header := some "strict-origin"
    csp_header := some "default-src"
    server := some "nginx"
    cache_control := some "no-cache" }

/-- The environment of the end-to-end scenario: successful fast fetch,
robots.txt present, sitemap.xml unreachable. -/
def scenarioEnv : AuditEnv :=
  { fetch := .ok 200 100
    doc := scenarioDoc
    headers := scenarioHeaders
    robotsResp := some (200, "User-agent: x Disallow: /admin")
    sitemapStatus := some 404
    headOracle := fun _ => none
    getOracle := fun _ => none }

/-- The points column of the deduction table, in source order. -/
def deductionPoints : List Int :=
  [5, 5, 5, 3, 2, 2, 10, 2, 1, 2, 5, 2, 5, 4, 2, 1, 1, 1, 1, 2, 2]

lemma dstep_fst_le (st : Int × List String) (d : Bool × Int × String) (h : 0 ≤ d.2.1) :
    (dstep st d).1 ≤ st.1 := by
  unfold dstep
  split <;> omega

lemma dstep_fst_ge (st : Int × List String) (d : Bool × Int × String) (h : 0 ≤ d.2.1) :
    st.1 - d.2.1 ≤ (dstep st d).1 := by
  unfold dstep
  split <;> omega

lemma foldl_dstep_bounds :
    ∀ (ds : List (Bool × Int × String)) (st : Int × List String),
      (∀ d ∈ ds, (0 : Int) ≤ d.2.1) →
      st.1 - (ds.map (fun d => d.2.1)).sum ≤ (ds.foldl dstep st).1 ∧
        (ds.foldl dstep st).1 ≤ st.1 := by
  intro ds
  induction ds with
  | nil => intro st _; simp
  | cons d ds ih =>
    intro st h
    have hd : (0 : Int) ≤ d.2.1 := h d (List.mem_cons_self d ds)
    have hrest := ih (dstep st d) (fun x hx => h x (List.mem_cons_of_mem d hx))
    have h1 := dstep_fst_le st d hd
    have h2 := dstep_fst_ge st d hd
    constructor
    · simp only [List.foldl_cons, List.map_cons, List.sum_cons]
      have := hrest.1
      omega
    · simp only [List.foldl_cons]
      exact le_trans hrest.2 h1

lemma deductionList_points (r : Report) :
    (deductionList r).map (fun d => d.2.1) = deductionPoints := rfl

lemma deductionPoints_nonneg : ∀ x ∈ deductionPoints, (0 : Int) ≤ x := by decide

lemma deductionList_points_nonneg (r : Report) :
    ∀ d ∈ deductionList r, (0 : Int) ≤ d.2.1 := by
  intro d hd
  exact deductionPoints_nonneg _ (deductionList_points r ▸ List.mem_map_of_mem _ hd)

lemma deductionPoints_sum : deductionPoints.sum = 63 := by decide

lemma score_raw_bounds (r : Report) :
    (37 : Int) ≤ (applyDeductions (deductionList r)).1 ∧
      (applyDeductions (deductionList r)).1 ≤ 100 := by
  have h := foldl_dstep_bounds (deductionList r) (100, []) (deductionList_points_nonneg r)
  unfold applyDeductions
  rw [deductionList_points, deductionPoints_sum] at h
  constructor
  · have := h.1; omega
  · exact h.2

/-- C3: for every report the scorer processes, whatever combination of
issues it carries, the overall score lies in the interval from 0 to 100:
the result of the deduction fold is floored at 0 and never exceeds the
starting value 100. -/
theorem c3_score_clamped (r : Report) :
    0 ≤ (score r).overall ∧ (score r).overall ≤ 100 := by
  have h := score_raw_bounds r
  unfold score
  constructor
  · exact le_max_right _ _
  · exact max_le h.2 (by omega)

/-- C10: the deduction table of the scorer sums to 63 points, so on every
full report the overall score is at least 37, the floor-at-zero clamp is
the identity (the clamped value equals the raw fold value), and the score
is never 0 — a zero score can only come from the short-circuit branches. -/
theorem c10_full_report_floor_inactive (r : Report) :
    ((deductionList r).map (fun d => d.2.1)).sum = 63 ∧
    37 ≤ (score r).overall ∧
    (score r).overall = (applyDeductions (deductionList r)).1 ∧
    (score r).overall ≠ 0 := by
  have h := score_raw_bounds r
  have hsum : ((deductionList r).map (fun d => d.2.1)).sum = 63 := by
    rw [deductionList_points, deductionPoints_sum]
  have hmax : (score r).overall = (applyDeductions (deductionList r)).1 := by
    unfold score
    exact max_eq_left (by omega)
  refine ⟨hsum, ?_, hmax, ?_⟩
  · rw [hmax]; exact h.1
  · rw [hmax]; omega

/-- C1: the sampling stage classifies each anchor by comparing the
resolved href host against the fixed placeholder host, not against the
audited page host: an anchor whose absolute href points at the audited
page own host lands in the external ranked list, although comparing hosts
with the audited page (as `_is_internal` does elsewhere with the real base
URL) classifies it internal. -/
theorem c1_placeholder_classification :
    smart_link_sampling [ownHostAnchor] 25 = ([], ["https://example.com/about"]) ∧
    is_internal "https://example.com/" "https://example.com/about" = true := by
  constructor
  · decide
  · decide

/-- C2 counterexample: on an audit whose page fetch returns HTTP 404 after
7 ms, the technical section carries the response time next to the status
code, so it does not carry only the status code as the claim states. -/
theorem c2_counterexample :
    (seo_audit "https://example.com" 25 10 env404).1.technical
        = TechSection.short none (some 404) (some 7) ∧
    (seo_audit "https://example.com" 25 10 env404).1.technical
        ≠ TechSection.short none (some 404) none := by
  constructor
  · rfl
  · decide

/-- C2 (amended): a fetch-level failure short-circuits to a report with
empty on-page and links sections, the technical dict holding only the
error message, exactly one recommendation naming the failure, and score 0
with a single critical deduction; an HTTP status of at least 400
short-circuits the same way, with the technical dict holding the status
code and the response time in milliseconds. -/
theorem c2_failure_reports (rawUrl : String) (ml w : Nat) (env : AuditEnv) :
    (∀ e, env.fetch = .failed e →
      (seo_audit rawUrl ml w env).1.on_page = none ∧
      (seo_audit rawUrl ml w env).1.links = none ∧
      (seo_audit rawUrl ml w env).1.technical = TechSection.short (some e) none none ∧
      (seo_audit rawUrl ml w env).1.recommendations = ["Could not fetch website: " ++ e] ∧
      (seo_audit rawUrl ml w env).1.scoreInfo = some ⟨0, ["Critical: site unreachable"]⟩) ∧
    (∀ s ms, env.fetch = .ok s ms → 400 ≤ s →
      (seo_audit rawUrl ml w env).1.on_page = none ∧
      (seo_audit rawUrl ml w env).1.links = none ∧
      (seo_audit rawUrl ml w env).1.technical = TechSection.short none (some s) (some ms) ∧
      (seo_audit rawUrl ml w env).1.recommendations
        = ["Website returned status code " ++ toString s ++ ". Check server health."] ∧
      (seo_audit rawUrl ml w env).1.scoreInfo = some ⟨0, ["Critical: HTTP error"]⟩) := by
  constructor
  · intro e he
    unfold seo_audit
    rw [he]
    exact ⟨rfl, rfl, rfl, rfl, rfl⟩
  · intro s ms he hs
    simp only [seo_audit, he]
    rw [if_pos hs]
    exact ⟨rfl, rfl, rfl, rfl, rfl⟩

theorem c2_failure_reports_witness :
    (seo_audit "https://example.com" 25 10 envFail).1.technical
        = TechSection.short (some "boom") none none ∧
    (seo_audit "https://example.com" 25 10 envFail).1.scoreInfo
        = some ⟨0, ["Critical: site unreachable"]⟩ ∧
    (seo_audit "https://example.com" 25 10 env404).1.technical
        = TechSection.short none (some 404) (some 7) ∧
    (seo_audit "https://example.com" 25 10 env404).1.scoreInfo
        = some ⟨0, ["Critical: HTTP error"]⟩ := by
  have h1 := (c2_failure_reports "https://example.com" 25 10 envFail).1 "boom" rfl
  have h2 := (c2_failure_reports "https://example.com" 25 10 env404).2 404 7 rfl (by omega)
  exact ⟨h1.2.2.1, h1.2.2.2.2, h2.2.2.1, h2.2.2.2.2⟩

/-- C9: on the end-to-end scenario page (no title, no meta description,
two h1 tags, one image without alt text, HTTPS without HSTS, unreachable
sitemap.xml, all other checks passing), the recommendations are exactly
the six expected strings and the score is 81 with the five expected
deductions; the single missing alt yields no deduction. -/
theorem c9_end_to_end_scenario :
    (seo_audit "https://example.com" 25 10 scenarioEnv).1.recommendations
      = ["Missing <title> tag.",
         "Add a unique meta description (120-160 characters).",
         "Use only one primary H1 heading per page.",
         "1 images missing alt text.",
         "Enable HSTS for better transport security.",
         "Missing sitemap.xml file."] ∧
    (seo_audit "https://example.com" 25 10 scenarioEnv).1.scoreInfo
      = some ⟨81, ["-5: Title issues", "-5: Meta description issues", "-5: H1 count issues",
          "-2: Missing HSTS", "-2: Missing sitemap.xml"]⟩ := by
  constructor
  · decide
  · decide

lemma uniqueAux_length_le (xs : List String) :
    ∀ seen, (uniqueAux seen xs).length ≤ xs.length := by
  induction xs with
  | nil => intro seen; simp [uniqueAux]
  | cons x xs ih =>
    intro seen
    simp only [uniqueAux]
    split
    · exact le_trans (ih seen) (by simp)
    · simpa using ih (x :: seen)

lemma unique_length_le (xs : List String) : (unique xs).length ≤ xs.length :=
  uniqueAux_length_le xs []

lemma sampling_length_le (anchors : List Anchor) (N : Nat) :
    (smart_link_sampling anchors N).1.length ≤ N ∧
      (smart_link_sampling anchors N).2.length ≤ N := by
  unfold smart_link_sampling
  constructor <;> simp [List.length_take]

/-- C4: the link budget is respected: at most N internal and at most N
external links are selected for validation whatever the page contains, and
with a budget of 0 no link is submitted to the pool, the buckets are
empty, the counts are 0 and no link recommendation is appended. -/
theorem c4_budget (base : String) (anchors : List Anchor) (N : Nat) (recs : List String)
    (w : Nat) (ho go : String → Option Nat) :
    (check_links base anchors N recs w ho go).links.internal_count ≤ N ∧
    (check_links base anchors N recs w ho go).links.external_count ≤ N ∧
    (N = 0 →
      (check_links base anchors N recs w ho go).submitted = [] ∧
      (check_links base anchors N recs w ho go).links = ⟨0, 0, [], [], []⟩ ∧
      (check_links base anchors N recs w ho go).recommendations = recs) := by
  have hs := sampling_length_le anchors N
  refine ⟨?_, ?_, ?_⟩
  · exact le_trans (unique_length_le _) hs.1
  · exact le_trans (unique_length_le _) hs.2
  · intro hN
    subst hN
    simp [check_links, smart_link_sampling, unique, uniqueAux, processBatch]

theorem c4_budget_witness :
    (check_links "https://example.com" [foreignAnchor, ownHostAnchor] 0 [] 10
      (fun _ => some 404) (fun _ => some 404)).submitted = [] ∧
    (check_links "https://example.com" [foreignAnchor, ownHostAnchor] 0 [] 10
      (fun _ => some 404) (fun _ => some 404)).links = ⟨0, 0, [], [], []⟩ ∧
    (check_links "https://example.com" [foreignAnchor, ownHostAnchor] 0 [] 10
      (fun _ => some 404) (fun _ => some 404)).recommendations = [] := by
  have h := c4_budget "https://example.com" [foreignAnchor, ownHostAnchor] 0 [] 10
    (fun _ => some 404) (fun _ => some 404)
  exact h.2.2 rfl

/-- C5 counterexample: one sampled external link returning 404 puts an
entry in the broken-external bucket, yet no recommendation at all is
appended — refuting the claim that each non-empty bucket gets one. -/
theorem c5_counterexample :
    (check_links "https://example.com" [foreignAnchor] 25 [] 10
      (fun _ => some 404) (fun _ => some 404)).links.broken_external
      = [("https://other.com/page", 404)] ∧
    (check_links "https://example.com" [foreignAnchor] 25 [] 10
      (fun _ => some 404) (fun _ => some 404)).recommendations = [] := by
  constructor
  · decide
  · decide

lemma recs_shape (recs : List String) (bi rd : List (String × Nat)) :
    (let recs1 := if bi.isEmpty then recs
       else recs ++ [toString bi.length ++ " internal links appear broken."];
     if rd.isEmpty then recs1
       else recs1 ++ [toString rd.length ++ " links redirect; update to final URLs where possible."])
    = recs ++
        (if bi.isEmpty then [] else [toString bi.length ++ " internal links appear broken."]) ++
        (if rd.isEmpty then []
         else [toString rd.length ++ " links redirect; update to final URLs where possible."]) := by
  by_cases h1 : bi.isEmpty <;> by_cases h2 : rd.isEmpty <;> simp [h1, h2]

/-- C5 (amended): the reported bucket lists are the first 10 entries of
the full buckets; a recommendation is appended exactly for a non-empty
broken-internal bucket and for a non-empty redirects bucket, each carrying
the full pre-truncation size of its bucket; a non-empty broken-external
bucket appends no recommendation. -/
theorem c5_bucket_recommendations (base : String) (anchors : List Anchor) (N : Nat)
    (recs : List String) (w : Nat) (ho go : String → Option Nat) :
    (check_links base anchors N recs w ho go).links.broken_internal
        = (fullBuckets base anchors N ho go).broken_internal.take 10 ∧
    (check_links base anchors N recs w ho go).links.broken_external
        = (fullBuckets base anchors N ho go).broken_external.take 10 ∧
    (check_links base anchors N recs w ho go).links.redirects
        = (fullBuckets base anchors N ho go).redirects.take 10 ∧
    (check_links base anchors N recs w ho go).recommendations
      = recs ++
        (if (fullBuckets base anchors N ho go).broken_internal.isEmpty then []
         else [toString (fullBuckets base anchors N ho go).broken_internal.length
           ++ " internal links appear broken."]) ++
        (if (fullBuckets base anchors N ho go).redirects.isEmpty then []
         else [toString (fullBuckets base anchors N ho go).redirects.length
           ++ " links redirect; update to final URLs where possible."]) := by
  unfold check_links fullBuckets
  refine ⟨rfl, rfl, rfl, ?_⟩
  exact recs_shape recs _ _

/-- C6: a GET retry is issued exactly when the HEAD probe answered with a
status that is at least 400 or is 405 or 501; an exception during the
validation of one link is recovered as status 0 in the broken bucket of
that link as classified against the base URL; and processing a batch is a
fold that always continues over the remaining links. -/
theorem c6_head_get_retry (headRes getRes : Option Nat) (base link : String)
    (st : Buckets) (probe : String → Option Nat) (links1 links2 : List String) :
    ((head_or_get headRes getRes).2 = true ↔
      ∃ s, headRes = some s ∧ (400 ≤ s ∨ s = 405 ∨ s = 501)) ∧
    (processLink base st link none =
      if is_internal base link then
        { st with broken_internal := st.broken_internal ++ [(link, 0)] }
      else { st with broken_external := st.broken_external ++ [(link, 0)] }) ∧
    (processBatch base probe (links1 ++ links2) st
      = processBatch base probe links2 (processBatch base probe links1 st)) := by
  refine ⟨?_, rfl, ?_⟩
  · cases headRes with
    | none => simp [head_or_get]
    | some s =>
      by_cases h : 400 ≤ s ∨ s = 405 ∨ s = 501
      · simp only [head_or_get, if_pos h]
        constructor
        · intro _
          exact ⟨s, rfl, h⟩
        · intro _
          trivial
      · simp only [head_or_get, if_neg h]
        constructor
        · intro hfalse
          simp at hfalse
        · intro hex
          rcases hex with ⟨s', heq, hcond⟩
          cases heq
          exact absurd hcond h
  · simp [processBatch, List.foldl_append]

/-- C7 counterexample: invoking the audit engine directly with 50 workers
creates the link-validation pool with max_workers 50 — the engine itself
applies no cap at 20. -/
theorem c7_counterexample :
    (seo_audit "https://example.com" 25 50 okEnv).2 = some ⟨[], 50⟩ ∧ ¬(50 ≤ 20) := by
  constructor
  · rfl
  · decide

/-- C7 (amended): the engine passes the caller-supplied worker count to
the pool unchanged; the cap at 20 is applied by the CLI and web entry
points, which take the minimum of the requested count and 20 before
invoking the engine. -/
theorem c7_workers_passthrough (rawUrl : String) (ml w : Nat) (env : AuditEnv)
    (s ms : Nat) (hf : env.fetch = .ok s ms) (hs : s < 400) :
    (∃ t, (seo_audit rawUrl ml w env).2 = some t ∧ t.pool_max_workers = w) ∧
    cli_workers w ≤ 20 ∧ (w ≤ 20 → cli_workers w = w) := by
  refine ⟨?_, ?_, ?_⟩
  · simp only [seo_audit, hf]
    rw [if_neg (by omega)]
    exact ⟨_, rfl, rfl⟩
  · unfold cli_workers
    omega
  · intro h
    unfold cli_workers
    omega

theorem c7_workers_passthrough_witness :
    (∃ t, (seo_audit "https://example.com" 25 12 okEnv).2 = some t ∧ t.pool_max_workers = 12) ∧
    cli_workers 12 ≤ 20 ∧ (12 ≤ 20 → cli_workers 12 = 12) :=
  c7_workers_passthrough "https://example.com" 25 12 okEnv 200 100 rfl (by omega)

/-- C8: for a document whose title strips to a non-empty string, the
too-short issue is recorded exactly when the stripped title length is
strictly below 30 and the too-long issue exactly when it is strictly above
60. -/
theorem c8_title_length_boundaries (raw : String) (recs : List String)
    (h : trimStr raw ≠ "") :
    (("Title too short (<30 chars)" ∈ (check_title (some raw) recs).2.1.issues) ↔
      (trimStr raw).length < 30) ∧
    (("Title too long (>60 chars)" ∈ (check_title (some raw) recs).2.1.issues) ↔
      60 < (trimStr raw).length) := by
  simp only [check_title]
  rw [if_pos h]
  by_cases h1 : (trimStr raw).length < 30 <;> by_cases h2 : 60 < (trimStr raw).length <;>
    simp [h1, h2]

theorem c8_title_length_boundaries_witness :
    (¬ ("Title too short (<30 chars)" ∈ (check_title (some (repA 30)) []).2.1.issues)) ∧
    ("Title too short (<30 chars)" ∈ (check_title (some (repA 29)) []).2.1.issues) ∧
    (¬ ("Title too long (>60 chars)" ∈ (check_title (some (repA 60)) []).2.1.issues)) ∧
    ("Title too long (>60 chars)" ∈ (check_title (some (repA 61)) []).2.1.issues) := by
  refine ⟨?_, ?_, ?_, ?_⟩
  · intro hm
    exact absurd ((c8_title_length_boundaries (repA 30) [] (by decide)).1.mp hm) (by decide)
  · exact (c8_title_length_boundaries (repA 29) [] (by decide)).1.mpr (by decide)
  · intro hm
    exact absurd ((c8_title_length_boundaries (repA 60) [] (by decide)).2.mp hm) (by decide)
  · exact (c8_title_length_boundaries (repA 61) [] (by decide)).2.mpr (by decide)

end SeoAudit
